import Mathlib

/-!
Verification development for the crystalball repository
(`Crystalball/budget.py` and `Crystalball/crystalball.py`).

Each Python function the claims touch is shallowly embedded as an
executable Lean definition, translated line by line from the source.
Machine floats are modelled as rationals; `np.sqrt` (whose value no
claim depends on exactly) is passed in as an explicit function
argument; Python `int()` truncation toward zero is `npint`;
`sys.exit(1)` and raised exceptions are `Except.error`.
-/

namespace Crystalball

/-- Python `int()` / `np.int()` conversion of a float: truncation toward zero. -/
def npint (q : ℚ) : ℤ :=
  if q < 0 then -(Int.floor (-q)) else Int.floor q

/-- The two measurement-set data types accepted by `get_budget`
(`budget.py` line 20: `{'complex':'complex64','dcomplex':'complex128'}`). -/
inductive MSDataType where
  | complex : MSDataType
  | dcomplex : MSDataType
deriving DecidableEq, Repr

/-- `np.dtype(data_type).itemsize` for the two accepted types
(complex64 is 8 bytes, complex128 is 16 bytes). -/
def itemsize : MSDataType → ℕ
  | MSDataType.complex => 8
  | MSDataType.dcomplex => 16

/-- The fields of `cb_args` read by `get_budget` (`budget.py` lines 9, 25-35). -/
structure BudgetArgs where
  num_workers : ℕ
  memory_fraction : ℚ
  row_chunks : ℤ
  model_chunks : ℤ
deriving DecidableEq, Repr

/-- The observable result of `get_budget`: the returned pair
`(rows_per_chunk, sources_per_chunk)` together with the
`memory_usage` estimate it computes and logs (`budget.py` lines 30, 38). -/
structure Budget where
  rows_per_chunk : ℤ
  sources_per_chunk : ℤ
  memory_usage : ℚ
deriving DecidableEq, Repr

/-- Embedding of `get_budget` (`budget.py` lines 7-43).
`systmem` is `psutil.virtual_memory()[0]`, `cpu_count` is
`psutil.cpu_count()`, and `sqrtf` stands for `np.sqrt`.
`fudge_factor` and `r2s` are the keyword parameters
(defaults 2.0 and 100 at every call site).  `sys.exit(1)` on a partial
chunk override is the `Except.error` branch. -/
def get_budget (nr_sources nr_rows nr_chans nr_corrs : ℕ)
    (data_type : MSDataType) (cb : BudgetArgs) (systmem : ℚ) (cpu_count : ℕ)
    (sqrtf : ℚ → ℚ) (fudge_factor r2s : ℚ) : Except String Budget :=
  let nrthreads : ℕ := if cb.num_workers = 0 then cpu_count else cb.num_workers
  let data_bytes : ℕ := itemsize data_type
  let bytes_per_row_source : ℕ := nr_chans * nr_corrs * data_bytes
  let memory_per_row_source : ℚ := (bytes_per_row_source : ℚ) * fudge_factor
  if cb.model_chunks ≠ 0 ∧ cb.row_chunks ≠ 0 then
    let rows_per_chunk : ℤ := cb.row_chunks
    let sources_per_chunk : ℤ := cb.model_chunks
    let memory_usage : ℚ :=
      (rows_per_chunk : ℚ) * (sources_per_chunk : ℚ) * memory_per_row_source * (nrthreads : ℚ)
    Except.ok ⟨rows_per_chunk, sources_per_chunk, memory_usage⟩
  else if cb.model_chunks = 0 ∧ cb.row_chunks = 0 then
    let allowed_rowXsource_per_thread : ℚ :=
      systmem * cb.memory_fraction / memory_per_row_source / (nrthreads : ℚ)
    let rows_per_chunk : ℤ :=
      npint (min (nr_rows : ℚ) (sqrtf (allowed_rowXsource_per_thread * r2s)))
    let sources_per_chunk : ℤ :=
      npint (min (nr_sources : ℚ) ((rows_per_chunk : ℚ) / r2s))
    let memory_usage : ℚ :=
      (rows_per_chunk : ℚ) * (sources_per_chunk : ℚ) * memory_per_row_source * (nrthreads : ℚ)
    Except.ok ⟨rows_per_chunk, sources_per_chunk, memory_usage⟩
  else
    Except.error ("sys.exit(1): you must set both row and source chunk, or leave both unset")

/-- Embedding of `corr_schema` (`crystalball.py` lines 105-129).
`ct` is `pol.CORR_TYPE.values`, `corrs` is `pol.NUM_CORR.values`.
The `(2, 2)`-shaped result is `Sum.inr` of a list of two rows, the
flat `(2,)` and `(1,)` results are `Sum.inl`; an out-of-range index
into `corr_types` is an `IndexError`. -/
def corr_schema (ct : List ℤ) (corrs : ℕ) :
    Except String (List ℤ ⊕ List (List ℤ)) :=
  if corrs = 4 then
    match ct.get? 0, ct.get? 1, ct.get? 2, ct.get? 3 with
    | some a, some b, some c, some d => Except.ok (Sum.inr [[a, b], [c, d]])
    | _, _, _, _ => Except.error ("IndexError")
  else if corrs = 2 then
    match ct.get? 0, ct.get? 1 with
    | some a, some b => Except.ok (Sum.inl [a, b])
    | _, _ => Except.error ("IndexError")
  else if corrs = 1 then
    match ct.get? 0 with
    | some a => Except.ok (Sum.inl [a])
    | _ => Except.error ("IndexError")
  else
    Except.error ("corrs " ++ toString corrs ++ " not in (1, 2, 4)")

/-- Embedding of `einsum_schema` (`crystalball.py` lines 132-158):
the index pattern handed to `da.einsum`, selected by the correlation
count and the spectral-model flag `dospec`. -/
def einsum_schema (corrs : ℕ) (dospec : Bool) : Except String String :=
  if corrs = 4 then
    if dospec then Except.ok ("srf, sfij -> srfij")
    else Except.ok ("srf, sij -> srfij")
  else if corrs = 2 ∨ corrs = 1 then
    if dospec then Except.ok ("srf, sfi -> srfi")
    else Except.ok ("srf, si -> srfi")
  else
    Except.error ("corrs " ++ toString corrs ++ " not in (1, 2, 4)")

/-- Split a character list into maximal runs of letters, dropping
separators (spaces, commas, the arrow); `cur` accumulates the current
run in reverse. -/
def tokensGo : List Char → List Char → List (List Char)
  | cur, [] => if cur.isEmpty then [] else [cur.reverse]
  | cur, c :: rest =>
      if c.isAlpha then tokensGo (c :: cur) rest
      else if cur.isEmpty then tokensGo [] rest
      else cur.reverse :: tokensGo [] rest

/-- The subscript groups of an einsum pattern string such as
`srf, sfij -> srfij`: the comma-separated operand subscripts followed
by the output subscripts. -/
def schemaTokens (s : String) : List (List Char) :=
  tokensGo [] s.toList

/-- Input subscript lists of an einsum pattern string: every subscript
group before the arrow. -/
def schemaInputs (s : String) : List (List Char) :=
  (schemaTokens s).dropLast

/-- Output subscript list of an einsum pattern string: the subscript
group after the arrow. -/
def schemaOutput (s : String) : List Char :=
  ((schemaTokens s).getLast?).getD []

/-- First-occurrence deduplication of a list (used for the set of index
labels appearing in einsum inputs). -/
def firstOccs {α : Type} [DecidableEq α] : List α → List α
  | [] => []
  | a :: r => a :: (firstOccs r).filter (fun x => decide (x ≠ a))

/-- The index labels an einsum pattern sums over: labels appearing in
some input operand but absent from the output.  numpy einsum semantics:
exactly these axes are contracted; all others are preserved. -/
def summedChars (s : String) : List Char :=
  (firstOccs (schemaInputs s).flatten).filter (fun c => decide (c ∉ schemaOutput s))

/-- Look up an index label's value in an assignment list, defaulting to 0. -/
def lookupD (env : List (Char × ℕ)) (c : Char) : ℕ :=
  (((env.find? (fun p => p.fst = c)).map Prod.snd).getD 0)

/-- All assignments of values `0 ≤ v < n` to a list of labelled extents. -/
def tuples : List (Char × ℕ) → List (List (Char × ℕ))
  | [] => [[]]
  | (c, n) :: rest =>
      (List.range n).flatMap (fun v => (tuples rest).map (fun a => (c, v) :: a))

/-- Reference semantics of a two-operand `np.einsum` over rationals:
tensors are functions from an index tuple (in subscript order) to a
value; the output at assignment `oenv` of the output labels is the sum,
over all assignments of the summed labels, of the product of the two
operands. -/
def einsum2 (s : String) (dims : List (Char × ℕ)) (t1 t2 : List ℕ → ℚ)
    (oenv : List (Char × ℕ)) : ℚ :=
  let ins := schemaInputs s
  let sub1 := ins.headD []
  let sub2 := ins.getD 1 []
  let sdims := (summedChars s).map (fun c => (c, lookupD dims c))
  ((tuples sdims).map (fun senv =>
      let env := oenv ++ senv
      t1 (sub1.map (lookupD env)) * t2 (sub2.map (lookupD env)))).sum

/-- One sky-model source as seen by the spectral path of `predict`
(`crystalball.py` lines 330-346): `stokesI` is `stokes[k, 0]`,
`coeffs` is the row `spec_coeff[k, :]`, `refFreq` is `ref_freq[k]`,
and `logSI` is the source's entry of the per-component log-flag
(spec §3, SkyComponent.logSpectralIndex). -/
structure SpecSource where
  stokesI : ℚ
  coeffs : List ℚ
  refFreq : ℚ
  logSI : Bool
deriving DecidableEq, Repr

/-- Ordinary-polynomial flux model at frequency `f` for one source
(`crystalball.py` lines 335 and 341):
`I = stokes_I * f^0 + Σ_j coeff_j * (f/ref_freq - 1)^(j+1)`. -/
def polyIs (f : ℚ) (src : SpecSource) : ℚ :=
  src.stokesI +
    ((List.range src.coeffs.length).map
      (fun jj => (src.coeffs.getD jj 0) * (f / src.refFreq - 1) ^ (jj + 1))).sum

/-- Logarithmic-polynomial flux model at frequency `f` for one source
(`crystalball.py` lines 333, 339 and 342):
`I = exp(log(stokes_I) * f^0 + Σ_j coeff_j * log((f/ref_freq)^(j+1)))`.
The transcendental `log` and `exp` are the explicit arguments `lg` and
`ex`; the claims settled here depend only on which model is applied,
not on their values. -/
def logpolyIs (lg ex : ℚ → ℚ) (f : ℚ) (src : SpecSource) : ℚ :=
  ex (lg src.stokesI +
    ((List.range src.coeffs.length).map
      (fun jj => (src.coeffs.getD jj 0) * lg ((f / src.refFreq) ^ (jj + 1)))).sum)

/-- numpy truthiness of a boolean array, as used by
`if log_spec_ind:`: a one-element array yields its element, any array
of two or more elements raises `ValueError` (ambiguous truth value);
the empty case is modelled as an error as well. -/
def npTruthy : List Bool → Except String Bool
  | [b] => Except.ok b
  | _ => Except.error
      ("ValueError: the truth value of an array with more than one element is ambiguous")

/-- Per-source flux spectra as the code computes them
(`crystalball.py` lines 330-342): a single branch on the truthiness of
the whole `log_spec_ind` array selects the logarithmic or the ordinary
polynomial model for every source at once; entry `[k][i]` is source
`k`'s flux at frequency `freqs[i]`. -/
def codeSpectrumI (lg ex : ℚ → ℚ) (sources : List SpecSource) (freqs : List ℚ) :
    Except String (List (List ℚ)) := do
  let b ← npTruthy (sources.map (fun s => s.logSI))
  Except.ok (sources.map (fun s => freqs.map (fun f =>
    if b then logpolyIs lg ex f s else polyIs f s)))

/-- Modelled from the spec (§4.3 step 3): per-source flux spectra with
the log- or linear-domain polynomial selected independently per source
by that source's own log-flag. -/
def specSpectrumI (lg ex : ℚ → ℚ) (sources : List SpecSource) (freqs : List ℚ) :
    List (List ℚ) :=
  sources.map (fun s => freqs.map (fun f =>
    if s.logSI then logpolyIs lg ex f s else polyIs f s))

/-- Distinct values of a list in ascending order, as `np.unique`
returns them. -/
def uniqueSorted (l : List ℚ) : List ℚ :=
  List.insertionSort (fun a b => a ≤ b) (firstOccs l)

/-- The inverse indices of `da.unique(..., return_inverse=True)`
(`crystalball.py` line 380): entry `i` is the position of `l[i]` in the
sorted array of distinct values. -/
def npTimeIndex (l : List ℚ) : List ℕ :=
  l.map (fun t => (uniqueSorted l).indexOf t)

/-- Modelled from the spec (§4.3 step 7): dense time indices assigned
stably in order of first occurrence — the first distinct timestamp gets
index 0, the next new one index 1, and so on. -/
def specTimeIndex (l : List ℚ) : List ℕ :=
  l.map (fun t => (firstOccs l).indexOf t)

/-- One Python statement of `__cluster`, abstracted to the names it
reads and the names it binds, tagged with its source line in
`crystalball.py`.  Evaluating a statement requires every name it reads
to be bound; this is the level of modelling needed for the clustering
routine, whose behaviour on every input is decided by name resolution
alone (it references names that are bound nowhere). -/
structure Stmt where
  line : ℕ
  reads : List String
  writes : List String
deriving DecidableEq, Repr

/-- Run a straight-line statement list in an environment of bound
names: the first statement reading an unbound name raises `NameError`
naming it; otherwise the statement's writes are added. -/
def runStmts : List String → List Stmt → Except String (List String)
  | env, [] => Except.ok env
  | env, st :: rest =>
      match st.reads.find? (fun n => !(env.contains n)) with
      | some n => Except.error ("NameError: name " ++ n ++ " is not defined")
      | none => runStmts (env ++ st.writes) rest

/-- Run a `for` loop a given number of iterations: each iteration binds
the loop targets `vars` and then runs the body; bindings persist. -/
def runLoop (body : List Stmt) (vars : List String) :
    List String → ℕ → Except String (List String)
  | env, 0 => Except.ok env
  | env, k + 1 => do
      let env2 ← runStmts (vars ++ env) body
      runLoop body vars env2 k

/-- The parameters of `__cluster` (`crystalball.py` lines 199-200). -/
def clusterParams : List String :=
  ["comp_type", "radec", "stokes", "spec_coeff", "ref_freq",
   "log_spec_ind", "gaussian_shape", "frequencies"]

/-- Names resolvable from enclosing scopes when `__cluster` runs:
module imports and builtins.  Crucially `frequency` is NOT here: it is
a local of `predict` first assigned at line 317, after the call to
`__cluster` at line 270; and `spec_coef`, `log_spec_coef`, `Ispoly` and
`nspec_coeff` are assigned nowhere in any scope. -/
def clusterEnclosing : List String :=
  ["np", "da", "curve_fit", "log", "range", "zip", "len"]

/-- Lines 201-208 of `crystalball.py`: `uniq_radec = np.unique(radec)`
and the seven empty accumulator lists. -/
def preLoopStmts : List Stmt :=
  [⟨201, ["np", "radec"], ["uniq_radec"]⟩,
   ⟨202, [], ["ncomp_type"]⟩,
   ⟨203, [], ["nradec"]⟩,
   ⟨204, [], ["nstokes"]⟩,
   ⟨205, [], ["nspec_coef"]⟩,
   ⟨206, [], ["nref_freq"]⟩,
   ⟨207, [], ["nlog_spec_ind"]⟩,
   ⟨208, [], ["ngaussian_shape"]⟩]

/-- Lines 211-244 of `crystalball.py`: the body of
`for urd in uniq_radec`, statement by statement.  Lines 230-237 (the
`if not np.all(np.isfinite(pfitvar))` branch and its `else`) are merged
into one entry reading the union of both branches; they are unreachable
because line 212 already reads the unbound `spec_coef`. -/
def loopBodyStmts : List Stmt :=
  [⟨211, ["comp_type", "urd"], ["deltasel"]⟩,
   ⟨212, ["np", "spec_coef", "urd"], ["polyspecsel"]⟩,
   ⟨213, ["deltasel", "polyspecsel"], ["sel"]⟩,
   ⟨214, ["stokes", "sel", "frequency"], ["Is"]⟩,
   ⟨215, ["range", "spec_coeff", "Is", "sel", "frequency", "ref_freq"], ["jj", "Is"]⟩,
   ⟨217, ["np", "Is"], ["Is"]⟩,
   ⟨218, ["np", "log_spec_coef", "urd"], ["logpolyspecsel"]⟩,
   ⟨219, ["deltasel", "logpolyspecsel"], ["sel"]⟩,
   ⟨221, ["np", "stokes", "sel", "frequency"], ["Is"]⟩,
   ⟨222, ["range", "spec_coeff", "Is", "sel", "da", "frequency", "ref_freq"], ["jj", "Is"]⟩,
   ⟨224, ["np", "Is"], ["Is"]⟩,
   ⟨225, ["np", "Is"], ["Islogpoly"]⟩,
   ⟨227, ["curve_fit", "frequency", "ref_freq", "sel", "Ispoly", "Islogpoly"],
         ["popt", "pfitvar"]⟩,
   ⟨230, ["np", "pfitvar"], []⟩,
   ⟨231, ["np", "stokes", "sel", "popt", "log", "radec", "pfitvar"], ["pcov"]⟩,
   ⟨239, ["ncomp_type"], []⟩,
   ⟨240, ["nradec", "urd"], []⟩,
   ⟨241, ["nstokes", "popt"], []⟩,
   ⟨242, ["nspec_coef", "popt"], []⟩,
   ⟨243, ["nref_freq", "ref_freq"], []⟩,
   ⟨244, [], ["nlog_spec_ind"]⟩]

/-- Lines 247-253 of `crystalball.py`: the Gaussian re-selection and
the `zip(...)` header, whose arguments (evaluated eagerly) include the
unbound `spec_coef` at line 250. -/
def postLoopHeaderStmts : List Stmt :=
  [⟨247, ["comp_type", "radec"], ["sel"]⟩,
   ⟨248, ["zip", "radec", "sel", "stokes", "spec_coef", "ref_freq",
          "log_spec_ind", "gaussian_shape"], []⟩]

/-- Lines 254-260 of `crystalball.py`: the appends inside the Gaussian
pass-through loop. -/
def gaussLoopBodyStmts : List Stmt :=
  [⟨254, ["ncomp_type"], []⟩,
   ⟨255, ["nradec", "rd"], []⟩,
   ⟨256, ["nstokes", "stks"], []⟩,
   ⟨257, ["nspec_coef", "spec"], []⟩,
   ⟨258, ["nref_freq", "ref"], []⟩,
   ⟨259, ["nlog_spec_ind", "lspec"], []⟩,
   ⟨260, ["ngaussian_shape", "gs"], []⟩]

/-- Lines 262-265 of `crystalball.py`: the final log line and the
return statement, which reads the unbound `nspec_coeff` at line 264
(the local accumulator is spelled `nspec_coef`). -/
def returnStmts : List Stmt :=
  [⟨262, ["log", "len", "comp_type", "ncomp_type"], []⟩,
   ⟨263, ["np", "ncomp_type", "nradec", "nstokes", "nspec_coeff",
          "nref_freq", "nlog_spec_ind", "ngaussian_shape"], []⟩]

/-- Embedding of `__cluster` (`crystalball.py` lines 199-265) at the
name-resolution level.  `np.unique(radec)` flattens the `(n, 2)`
position array and returns its sorted distinct scalars, giving the
outer loop's trip count; the Gaussian loop's trip count is the number
of `GAUSSIAN` entries.  The result on success would be the final
environment; no input reaches it. -/
def cluster (comp_type : List String) (radec : List (ℚ × ℚ)) :
    Except String (List String) :=
  Except.bind (runStmts (clusterParams ++ clusterEnclosing) preLoopStmts) (fun env1 =>
    Except.bind (runLoop loopBodyStmts ["urd"] env1
        (uniqueSorted (radec.flatMap (fun p => [p.fst, p.snd]))).length) (fun env2 =>
      Except.bind (runStmts env2 postLoopHeaderStmts) (fun env3 =>
        Except.bind (runLoop gaussLoopBodyStmts ["rd", "stks", "spec", "ref", "lspec", "gs"]
            env3 (comp_type.filter (fun t => t == "GAUSSIAN")).length) (fun env4 =>
          runStmts env4 returnStmts))))

/-- All names `__cluster` ever binds: parameters, enclosing-scope
names, loop targets, and every statement's writes. -/
def clusterBoundNames : List String :=
  clusterParams ++ clusterEnclosing ++ ["urd", "rd", "stks", "spec", "ref", "lspec", "gs"] ++
    (preLoopStmts ++ loopBodyStmts ++ postLoopHeaderStmts ++
      gaussLoopBodyStmts ++ returnStmts).flatMap (fun st => st.writes)

/-- All names `__cluster` reads. -/
def clusterReadNames : List String :=
  (preLoopStmts ++ loopBodyStmts ++ postLoopHeaderStmts ++
    gaussLoopBodyStmts ++ returnStmts).flatMap (fun st => st.reads)

/-! Helper lemmas shared by the claim theorems below. -/

/-- Truncation of `min (a, x)` toward zero for a natural bound `a` and a
nonnegative value `x` is nonnegative and at most `a`. -/
theorem npint_min_nat_nonneg_le (a : ℕ) (x : ℚ) (hx : 0 ≤ x) :
    0 ≤ npint (min (a : ℚ) x) ∧ npint (min (a : ℚ) x) ≤ (a : ℤ) := by
  have h0 : (0 : ℚ) ≤ min (a : ℚ) x := le_min (Nat.cast_nonneg a) hx
  have hn : npint (min (a : ℚ) x) = Int.floor (min (a : ℚ) x) := by
    unfold npint
    rw [if_neg (not_lt.mpr h0)]
  constructor
  · rw [hn]
    exact Int.floor_nonneg.mpr h0
  · rw [hn]
    calc Int.floor (min (a : ℚ) x) ≤ Int.floor ((a : ℚ)) := Int.floor_mono (min_le_left _ _)
      _ = (a : ℤ) := Int.floor_natCast a

/-- First-occurrence deduplication produces a list without duplicates. -/
theorem firstOccs_nodup {α : Type} [DecidableEq α] (l : List α) : (firstOccs l).Nodup := by
  induction l with
  | nil => simp [firstOccs]
  | cons a r ih =>
    simp only [firstOccs, List.nodup_cons]
    constructor
    · intro hmem
      have := (List.mem_filter.mp hmem).2
      simp at this
    · exact List.Nodup.filter _ ih

/-- First-occurrence deduplication preserves membership. -/
theorem mem_firstOccs {α : Type} [DecidableEq α] (t : α) (l : List α) :
    t ∈ firstOccs l ↔ t ∈ l := by
  induction l with
  | nil => simp [firstOccs]
  | cons a r ih =>
    simp only [firstOccs, List.mem_cons, List.mem_filter]
    by_cases h : t = a
    · simp [h]
    · simp [h, ih]

/-- The sorted distinct values of a list are strictly increasing. -/
theorem uniqueSorted_pairwise_lt (l : List ℚ) :
    (uniqueSorted l).Pairwise (fun a b => a < b) := by
  have h1 : (uniqueSorted l).Pairwise (fun a b => a ≤ b) :=
    List.sorted_insertionSort (fun a b => a ≤ b) (firstOccs l)
  have h2 : (uniqueSorted l).Pairwise (fun a b => a ≠ b) :=
    ((List.perm_insertionSort (fun a b => a ≤ b) (firstOccs l)).nodup_iff).mpr
      (firstOccs_nodup l)
  exact (h1.and h2).imp (fun h => lt_of_le_of_ne h.1 h.2)

/-- Membership in the sorted distinct values coincides with membership
in the original list. -/
theorem mem_uniqueSorted (t : ℚ) (l : List ℚ) : t ∈ uniqueSorted l ↔ t ∈ l := by
  unfold uniqueSorted
  rw [(List.perm_insertionSort (fun a b => a ≤ b) (firstOccs l)).mem_iff]
  exact mem_firstOccs t l

/-- In a strictly increasing list, the index of a member equals the
number of entries smaller than it. -/
theorem indexOf_eq_countP_lt (u : List ℚ) (hU : u.Pairwise (fun a b => a < b))
    (t : ℚ) (ht : t ∈ u) :
    u.indexOf t = u.countP (fun x => decide (x < t)) := by
  induction u with
  | nil => simp at ht
  | cons a rest ih =>
    have hrest : ∀ x ∈ rest, a < x := (List.pairwise_cons.mp hU).1
    rcases List.mem_cons.mp ht with h | h
    · subst h
      have hz : rest.countP (fun x => decide (x < t)) = 0 := by
        rw [List.countP_eq_zero]
        intro x hx
        simp [not_lt.mpr (le_of_lt (hrest x hx))]
      simp [List.indexOf_cons_self, List.countP_cons, hz]
    · have hat : a < t := hrest t h
      have hne : t ≠ a := fun hEq => absurd (hEq ▸ hat) (lt_irrefl t)
      rw [List.indexOf_cons_ne _ (fun hEq => hne hEq.symm)]
      rw [List.countP_cons]
      simp [hat, ih ((List.pairwise_cons.mp hU).2) h]

/-- An einsum pattern with no summed index evaluates to the pure
broadcast product of its two operands. -/
theorem einsum2_no_summed_is_product (s : String) (h : summedChars s = [])
    (dims : List (Char × ℕ)) (t1 t2 : List ℕ → ℚ) (oenv : List (Char × ℕ)) :
    einsum2 s dims t1 t2 oenv =
      t1 (((schemaInputs s).headD []).map (lookupD oenv)) *
      t2 (((schemaInputs s).getD 1 []).map (lookupD oenv)) := by
  simp [einsum2, h, tuples]

/-! Claim theorems. -/

/-- C5: for all positive `nSources`, `nRows`, `nChannels` and
`nCorrelations` in `{1, 2, 4}`, in the auto-sized path of `get_budget`
the estimated memory satisfies exactly
`estimatedMemoryBytes = rowsPerChunk * sourcesPerChunk * nChannels *
nCorrelations * elementByteSize * fudgeFactor * workerCount`. -/
theorem budget_auto_memory_formula
    (ns nr nc ncorr : ℕ) (dt : MSDataType) (cb : BudgetArgs)
    (systmem : ℚ) (cpu : ℕ) (sqrtf : ℚ → ℚ) (fudge r2s : ℚ)
    (hns : 0 < ns) (hnr : 0 < nr) (hnc : 0 < nc)
    (hcorr : ncorr = 1 ∨ ncorr = 2 ∨ ncorr = 4)
    (hrc : cb.row_chunks = 0) (hmc : cb.model_chunks = 0) :
    ∃ b, get_budget ns nr nc ncorr dt cb systmem cpu sqrtf fudge r2s = Except.ok b ∧
      b.memory_usage = (b.rows_per_chunk : ℚ) * (b.sources_per_chunk : ℚ) *
        (nc : ℚ) * (ncorr : ℚ) * (itemsize dt : ℚ) * fudge *
        ((if cb.num_workers = 0 then cpu else cb.num_workers : ℕ) : ℚ) := by
  simp only [get_budget, hrc, hmc, ne_eq, not_true_eq_false, and_false, false_and, if_false,
    and_self, if_true, reduceIte]
  refine ⟨_, rfl, ?_⟩
  push_cast
  ring

/-- C5 witness: the memory identity at a concrete auto-sized call. -/
theorem budget_auto_memory_formula_witness :
    ∃ b, get_budget 10 50 1 2 MSDataType.complex ⟨0, 1/2, 0, 0⟩ 100 2
        (fun x => x) 2 100 = Except.ok b ∧
      b.memory_usage = (b.rows_per_chunk : ℚ) * (b.sources_per_chunk : ℚ) *
        ((1 : ℕ) : ℚ) * ((2 : ℕ) : ℚ) * (itemsize MSDataType.complex : ℚ) * 2 *
        ((if (0 : ℕ) = 0 then (2 : ℕ) else (0 : ℕ)) : ℚ) :=
  budget_auto_memory_formula 10 50 1 2 MSDataType.complex ⟨0, 1/2, 0, 0⟩ 100 2
    (fun x => x) 2 100 (by decide) (by decide) (by decide) (by decide) rfl rfl

/-- C6: a partial chunk-size override (exactly one of `row_chunks`,
`model_chunks` nonzero) makes `get_budget` fail fatally via
`sys.exit(1)`; when both are nonzero the user values are returned
directly. -/
theorem budget_partial_override_fatal
    (ns nr nc ncorr : ℕ) (dt : MSDataType) (cb : BudgetArgs)
    (systmem : ℚ) (cpu : ℕ) (sqrtf : ℚ → ℚ) (fudge r2s : ℚ) :
    (((cb.row_chunks = 0 ∧ cb.model_chunks ≠ 0) ∨
        (cb.row_chunks ≠ 0 ∧ cb.model_chunks = 0)) →
      get_budget ns nr nc ncorr dt cb systmem cpu sqrtf fudge r2s =
        Except.error
          ("sys.exit(1): you must set both row and source chunk, or leave both unset")) ∧
    (cb.row_chunks ≠ 0 → cb.model_chunks ≠ 0 →
      ∃ b, get_budget ns nr nc ncorr dt cb systmem cpu sqrtf fudge r2s = Except.ok b ∧
        b.rows_per_chunk = cb.row_chunks ∧ b.sources_per_chunk = cb.model_chunks) := by
  constructor
  · rintro (⟨h1, h2⟩ | ⟨h1, h2⟩) <;> simp [get_budget, h1, h2]
  · intro h1 h2
    simp only [get_budget, h1, h2, ne_eq, not_false_eq_true, and_self, if_true, reduceIte]
    exact ⟨_, rfl, rfl, rfl⟩

/-- C6 witness: a concrete partial override fails and a concrete full
override is used directly. -/
theorem budget_partial_override_fatal_witness :
    (get_budget 3 4 1 1 MSDataType.complex ⟨1, 1/2, 5, 0⟩ 100 2
        (fun x => x) 2 100 =
      Except.error
        ("sys.exit(1): you must set both row and source chunk, or leave both unset")) ∧
    (∃ b, get_budget 3 4 1 1 MSDataType.complex ⟨1, 1/2, 5, 7⟩ 100 2
        (fun x => x) 2 100 = Except.ok b ∧
      b.rows_per_chunk = 5 ∧ b.sources_per_chunk = 7) :=
  ⟨(budget_partial_override_fatal 3 4 1 1 MSDataType.complex ⟨1, 1/2, 5, 0⟩ 100 2
      (fun x => x) 2 100).1 (Or.inr ⟨by decide, rfl⟩),
   (budget_partial_override_fatal 3 4 1 1 MSDataType.complex ⟨1, 1/2, 5, 7⟩ 100 2
      (fun x => x) 2 100).2 (by decide) (by decide)⟩

/-- C7 counterexample: with 10 sources, 50 rows, one channel, one
correlation, complex64 data, one worker, memory fraction 1/2 and
320000 bytes of system memory, the auto path computes
`allowed = 10000`, takes the exact square root 1000 of
`allowed * 100`, and returns `sources_per_chunk = 0` — not a positive
integer although `nSources = 10 > 0`; no clamping to 1 happens. -/
theorem budget_zero_sources_per_chunk_counterexample :
    get_budget 10 50 1 1 MSDataType.complex ⟨1, 1/2, 0, 0⟩ 320000 4
        (fun _ => 1000) 2 100 = Except.ok ⟨50, 0, 0⟩ ∧
    (1000 : ℚ) * 1000 = 320000 * (1/2) / (((1 * 1 * 8 : ℕ) : ℚ) * 2) / 1 * 100 ∧
    ¬ (0 < (Budget.mk 50 0 0).sources_per_chunk) := by
  refine ⟨?_, by norm_num, by norm_num⟩
  norm_num [get_budget, itemsize, npint]

/-- C7 amended: in the auto-sized path (nonnegative memory settings,
genuine nonnegative square root), the returned chunk sizes are
integers with `0 ≤ rows_per_chunk ≤ nRows` and
`0 ≤ sources_per_chunk ≤ nSources`; positivity is NOT guaranteed — no
clamping to at least 1 row/source exists in the code, and
`sources_per_chunk` is 0 whenever `rows_per_chunk < row2source_ratio`. -/
theorem budget_auto_chunks_within_totals
    (ns nr nc ncorr : ℕ) (dt : MSDataType) (cb : BudgetArgs)
    (systmem : ℚ) (cpu : ℕ) (sqrtf : ℚ → ℚ) (fudge r2s : ℚ)
    (hrc : cb.row_chunks = 0) (hmc : cb.model_chunks = 0)
    (hsys : 0 ≤ systmem) (hmf : 0 ≤ cb.memory_fraction) (hf : 0 ≤ fudge)
    (hr2s : 0 < r2s) (hsqrt : ∀ x, 0 ≤ x → 0 ≤ sqrtf x) :
    ∃ b, get_budget ns nr nc ncorr dt cb systmem cpu sqrtf fudge r2s = Except.ok b ∧
      0 ≤ b.rows_per_chunk ∧ b.rows_per_chunk ≤ (nr : ℤ) ∧
      0 ≤ b.sources_per_chunk ∧ b.sources_per_chunk ≤ (ns : ℤ) := by
  simp only [get_budget, hrc, hmc, ne_eq, not_true_eq_false, and_false, false_and, if_false,
    and_self, if_true, reduceIte]
  refine ⟨_, rfl, ?_, ?_, ?_, ?_⟩
  all_goals
    have hmprs : (0 : ℚ) ≤ ((nc * ncorr * itemsize dt : ℕ) : ℚ) * fudge :=
      mul_nonneg (Nat.cast_nonneg _) hf
    have hA : (0 : ℚ) ≤ systmem * cb.memory_fraction /
        (((nc * ncorr * itemsize dt : ℕ) : ℚ) * fudge) /
        ((if cb.num_workers = 0 then cpu else cb.num_workers : ℕ) : ℚ) :=
      div_nonneg (div_nonneg (mul_nonneg hsys hmf) hmprs) (Nat.cast_nonneg _)
    have hs : (0 : ℚ) ≤ sqrtf (systmem * cb.memory_fraction /
        (((nc * ncorr * itemsize dt : ℕ) : ℚ) * fudge) /
        ((if cb.num_workers = 0 then cpu else cb.num_workers : ℕ) : ℚ) * r2s) :=
      hsqrt _ (mul_nonneg hA hr2s.le)
    have hrow := npint_min_nat_nonneg_le nr _ hs
    have hsrc := npint_min_nat_nonneg_le ns _
      (div_nonneg (Int.cast_nonneg.mpr hrow.1) hr2s.le)
  · exact hrow.1
  · exact hrow.2
  · exact hsrc.1
  · exact hsrc.2

/-- C7 amended witness: the bounds at the concrete auto-sized call of
the counterexample. -/
theorem budget_auto_chunks_within_totals_witness :
    ∃ b, get_budget 10 50 1 1 MSDataType.complex ⟨1, 1/2, 0, 0⟩ 320000 4
        (fun _ => 1000) 2 100 = Except.ok b ∧
      0 ≤ b.rows_per_chunk ∧ b.rows_per_chunk ≤ ((50 : ℕ) : ℤ) ∧
      0 ≤ b.sources_per_chunk ∧ b.sources_per_chunk ≤ ((10 : ℕ) : ℤ) :=
  budget_auto_chunks_within_totals 10 50 1 1 MSDataType.complex ⟨1, 1/2, 0, 0⟩ 320000 4
    (fun _ => 1000) 2 100 rfl rfl (by norm_num) (by norm_num) (by norm_num)
    (by norm_num) (fun x hx => by norm_num)

/-- C8: for every correlation count outside `{1, 2, 4}` both
`corr_schema` and `einsum_schema` raise the fatal
`corrs %d not in (1, 2, 4)` error — no default layout is chosen — and
for counts 4, 2 and 1 the correlation schema has shape `2x2`, `(2,)`
and `(1,)` respectively. -/
theorem corr_einsum_invalid_count_fatal (n : ℕ) (t0 t1 t2 t3 : ℤ) (d : Bool)
    (h : ¬(n = 1 ∨ n = 2 ∨ n = 4)) :
    corr_schema [t0, t1, t2, t3] n =
        Except.error ("corrs " ++ toString n ++ " not in (1, 2, 4)") ∧
    einsum_schema n d =
        Except.error ("corrs " ++ toString n ++ " not in (1, 2, 4)") ∧
    corr_schema [t0, t1, t2, t3] 4 = Except.ok (Sum.inr [[t0, t1], [t2, t3]]) ∧
    corr_schema [t0, t1, t2, t3] 2 = Except.ok (Sum.inl [t0, t1]) ∧
    corr_schema [t0, t1, t2, t3] 1 = Except.ok (Sum.inl [t0]) := by
  push_neg at h
  obtain ⟨h1, h2, h4⟩ := h
  refine ⟨?_, ?_, rfl, rfl, rfl⟩
  · simp [corr_schema, h1, h2, h4]
  · simp [einsum_schema, h1, h2, h4]

/-- C8 witness: correlation count 3 with the example correlation types
9, 10, 11, 12. -/
theorem corr_einsum_invalid_count_fatal_witness :
    corr_schema [9, 10, 11, 12] 3 =
        Except.error ("corrs " ++ toString 3 ++ " not in (1, 2, 4)") ∧
    einsum_schema 3 true =
        Except.error ("corrs " ++ toString 3 ++ " not in (1, 2, 4)") ∧
    corr_schema [9, 10, 11, 12] 4 = Except.ok (Sum.inr [[9, 10], [11, 12]]) ∧
    corr_schema [9, 10, 11, 12] 2 = Except.ok (Sum.inl [9, 10]) ∧
    corr_schema [9, 10, 11, 12] 1 = Except.ok (Sum.inl [9]) :=
  corr_einsum_invalid_count_fatal 3 9 10 11 12 true (by decide)

/-- C2 counterexample: the spectral 4-correlation pattern is
`srf, sfij -> srfij`: the source label `s` appears in the OUTPUT
subscripts and the pattern sums over no index at all, so the
contraction selected by the engine does not collapse the source
dimension (`predict_vis` does that later). -/
theorem einsum_schema_keeps_source_axis_counterexample :
    einsum_schema 4 true = Except.ok ("srf, sfij -> srfij") ∧
    's' ∈ schemaOutput ("srf, sfij -> srfij") ∧
    summedChars ("srf, sfij -> srfij") = [] ∧
    ¬ 's' ∈ summedChars ("srf, sfij -> srfij") := by
  refine ⟨rfl, ?_, ?_, ?_⟩ <;> decide

/-- C2 amended: for every correlation count in `{1, 2, 4}` and each
spectral flag, the selected pattern contracts NOTHING: every input
label (source `s`, row `r`, frequency `f` and the correlation labels)
appears in the output, the summed-label set is empty, and the einsum
evaluates to the pure broadcast product of phase and brightness; all
four patterns therefore treat the source dimension identically by
preserving it, and the sum over sources happens downstream in
`predict_vis`. -/
theorem einsum_schema_broadcast_no_contraction (c : ℕ) (d : Bool)
    (hc : c = 1 ∨ c = 2 ∨ c = 4) :
    ∃ s, einsum_schema c d = Except.ok s ∧ summedChars s = [] ∧
      's' ∈ schemaOutput s ∧ 'r' ∈ schemaOutput s ∧ 'f' ∈ schemaOutput s ∧
      (∀ ch ∈ (schemaInputs s).flatten, ch ∈ schemaOutput s) ∧
      (∀ dims t1 t2 oenv, einsum2 s dims t1 t2 oenv =
        t1 (((schemaInputs s).headD []).map (lookupD oenv)) *
        t2 (((schemaInputs s).getD 1 []).map (lookupD oenv))) := by
  rcases hc with rfl | rfl | rfl <;> cases d <;>
    exact ⟨_, rfl, by decide, by decide, by decide, by decide, by decide,
      fun dims t1 t2 oenv => einsum2_no_summed_is_product _ (by decide) dims t1 t2 oenv⟩

/-- C2 amended witness: the 4-correlation spectral pattern. -/
theorem einsum_schema_broadcast_no_contraction_witness :
    ∃ s, einsum_schema 4 true = Except.ok s ∧ summedChars s = [] ∧
      's' ∈ schemaOutput s ∧ 'r' ∈ schemaOutput s ∧ 'f' ∈ schemaOutput s ∧
      (∀ ch ∈ (schemaInputs s).flatten, ch ∈ schemaOutput s) ∧
      (∀ dims t1 t2 oenv, einsum2 s dims t1 t2 oenv =
        t1 (((schemaInputs s).headD []).map (lookupD oenv)) *
        t2 (((schemaInputs s).getD 1 []).map (lookupD oenv))) :=
  einsum_schema_broadcast_no_contraction 4 true (by decide)

/-- C1 counterexample: a mixed two-source collection (log-flag true
for the first source, false for the second).  The code's single
`if log_spec_ind:` test over the whole flag array raises the numpy
ambiguous-truth-value error, so no source is evaluated with its own
per-source model; per-source selection (the spec-modelled
`specSpectrumI`) would instead return a value. -/
theorem spectral_model_mixed_flags_counterexample :
    codeSpectrumI (fun x => x) (fun x => x)
        [⟨1, [1], 1, true⟩, ⟨2, [1], 1, false⟩] [2] =
      Except.error
        ("ValueError: the truth value of an array with more than one element is ambiguous") ∧
    specSpectrumI (fun x => x) (fun x => x)
        [⟨1, [1], 1, true⟩, ⟨2, [1], 1, false⟩] [2] = [[3], [3]] ∧
    codeSpectrumI (fun x => x) (fun x => x)
        [⟨1, [1], 1, true⟩, ⟨2, [1], 1, false⟩] [2] ≠
      Except.ok (specSpectrumI (fun x => x) (fun x => x)
        [⟨1, [1], 1, true⟩, ⟨2, [1], 1, false⟩] [2]) := by
  have hL : codeSpectrumI (fun x => x) (fun x => x)
      [⟨1, [1], 1, true⟩, ⟨2, [1], 1, false⟩] [2] =
    Except.error
      ("ValueError: the truth value of an array with more than one element is ambiguous") := rfl
  refine ⟨hL, ?_, ?_⟩
  · norm_num [specSpectrumI, polyIs, logpolyIs, List.range_succ]
  · rw [hL]
    simp

/-- C1 amended: the spectral path branches once on the truthiness of
the whole log-flag array instead of per source: a single-source
collection is evaluated with the model its own flag selects (agreeing
with per-source selection), but every collection of two or more
sources raises the numpy ambiguous-truth-value error, so per-source
selection never happens for mixed — or even uniform — multi-source
collections. -/
theorem spectral_model_global_flag_selection (lg ex : ℚ → ℚ) (s : SpecSource)
    (freqs : List ℚ) (sources : List SpecSource) :
    codeSpectrumI lg ex [s] freqs = Except.ok (specSpectrumI lg ex [s] freqs) ∧
    (2 ≤ sources.length →
      codeSpectrumI lg ex sources freqs =
        Except.error
          ("ValueError: the truth value of an array with more than one element is ambiguous")) := by
  constructor
  · rfl
  · intro h
    cases sources with
    | nil => simp at h
    | cons a rest =>
      cases rest with
      | nil => simp at h
      | cons b rest2 => rfl

/-- C1 amended witness: a concrete singleton agreeing with per-source
selection and a concrete uniform two-source collection failing. -/
theorem spectral_model_global_flag_selection_witness :
    codeSpectrumI (fun x => x) (fun x => x) [⟨2, [1], 1, false⟩] [2] =
      Except.ok (specSpectrumI (fun x => x) (fun x => x) [⟨2, [1], 1, false⟩] [2]) ∧
    codeSpectrumI (fun x => x) (fun x => x)
        [⟨1, [], 1, true⟩, ⟨1, [], 1, true⟩] [2] =
      Except.error
        ("ValueError: the truth value of an array with more than one element is ambiguous") :=
  ⟨(spectral_model_global_flag_selection (fun x => x) (fun x => x) ⟨2, [1], 1, false⟩ [2]
      [⟨1, [], 1, true⟩, ⟨1, [], 1, true⟩]).1,
   (spectral_model_global_flag_selection (fun x => x) (fun x => x) ⟨2, [1], 1, false⟩ [2]
      [⟨1, [], 1, true⟩, ⟨1, [], 1, true⟩]).2 (by decide)⟩

/-- C3: evaluation of the clustering routine at the claim's own
scenario — two point sources at two distinct positions.  Instead of
emitting exactly two clustered entries, `__cluster` raises
`NameError` on the unbound `spec_coef` (line 212) in the very first
loop iteration and returns nothing. -/
theorem cluster_two_positions_unbound_name_error :
    cluster ["POINT", "POINT"] [(1, 2), (3, 4)] =
      Except.error ("NameError: name spec_coef is not defined") := rfl

/-- C4: evaluation of the clustering routine at a single point source.
The flat-spectrum fallback branch (lines 230-233, setting `popt[0]` to
the summed stokes and the rest to infinity with a warning) is
unreachable: execution raises `NameError` on the unbound `spec_coef`
at line 212, before `curve_fit` is ever called. -/
theorem cluster_refit_fallback_unreachable :
    cluster ["POINT"] [(5, 6)] =
      Except.error ("NameError: name spec_coef is not defined") := rfl

/-- C9 counterexample: for the timestamp sequence `[3, 1]` the code's
`da.unique(..., return_inverse=True)` indices are `[1, 0]` — the first
distinct timestamp encountered (3) receives index 1, not 0 — whereas
first-occurrence order (the claim, spec-modelled `specTimeIndex`)
would give `[0, 1]`. -/
theorem time_index_sorted_not_first_occurrence_counterexample :
    npTimeIndex [3, 1] = [1, 0] ∧ specTimeIndex [3, 1] = [0, 1] ∧
    npTimeIndex [3, 1] ≠ specTimeIndex [3, 1] := by
  refine ⟨?_, ?_, ?_⟩ <;> decide

/-- C9 amended: the engine maps timestamps to dense integer indices by
rank in the ASCENDING SORTED order of the distinct values — entry `i`
equals the number of distinct timestamps strictly smaller than
timestamp `i` — not by order of first occurrence; the two orders agree
only when distinct timestamps first appear in increasing order. -/
theorem time_index_sorted_rank (l : List ℚ) :
    npTimeIndex l = l.map (fun t => (firstOccs l).countP (fun x => decide (x < t))) := by
  unfold npTimeIndex
  apply List.map_congr_left
  intro t ht
  rw [indexOf_eq_countP_lt (uniqueSorted l) (uniqueSorted_pairwise_lt l) t
    ((mem_uniqueSorted t l).mpr ht)]
  exact (List.perm_insertionSort (fun a b => a ≤ b) (firstOccs l)).countP_eq _

/-- C10: with clustering enabled, on every non-empty component list
`__cluster` raises an unbound-name error and never returns: the names
`spec_coef`, `frequency`, `log_spec_coef` and `Ispoly` are read but
bound nowhere, and already the second statement (line 212) of the very
first unique-position iteration fails on `spec_coef`, as the last
conjunct shows on the loop entry environment. -/
theorem cluster_unbound_names_error (ct : List String) (radec : List (ℚ × ℚ))
    (h : radec ≠ []) :
    cluster ct radec = Except.error ("NameError: name spec_coef is not defined") ∧
    ("spec_coef" ∈ clusterReadNames ∧ "spec_coef" ∉ clusterBoundNames) ∧
    ("frequency" ∈ clusterReadNames ∧ "frequency" ∉ clusterBoundNames) ∧
    ("log_spec_coef" ∈ clusterReadNames ∧ "log_spec_coef" ∉ clusterBoundNames) ∧
    ("Ispoly" ∈ clusterReadNames ∧ "Ispoly" ∉ clusterBoundNames) ∧
    runStmts (["urd"] ++ clusterParams ++ clusterEnclosing ++
        ["uniq_radec", "ncomp_type", "nradec", "nstokes", "nspec_coef", "nref_freq",
         "nlog_spec_ind", "ngaussian_shape"]) (loopBodyStmts.take 2) =
      Except.error ("NameError: name spec_coef is not defined") := by
  refine ⟨?_, by decide, by decide, by decide, by decide, rfl⟩
  obtain ⟨p, rest, rfl⟩ : ∃ p rest, radec = p :: rest := by
    cases radec with
    | nil => exact absurd rfl h
    | cons p rest => exact ⟨p, rest, rfl⟩
  have hlen : (uniqueSorted ((p :: rest).flatMap (fun q => [q.fst, q.snd]))).length ≠ 0 := by
    unfold uniqueSorted
    rw [(List.perm_insertionSort (fun a b => a ≤ b) _).length_eq]
    simp [firstOccs]
  obtain ⟨k, hk⟩ := Nat.exists_eq_succ_of_ne_zero hlen
  unfold cluster
  rw [hk]
  rfl

/-- C10 witness: a concrete two-component list, one point and one
Gaussian source. -/
theorem cluster_unbound_names_error_witness :
    cluster ["POINT", "GAUSSIAN"] [(0, 0), (1, 1)] =
      Except.error ("NameError: name spec_coef is not defined") ∧
    ("spec_coef" ∈ clusterReadNames ∧ "spec_coef" ∉ clusterBoundNames) ∧
    ("frequency" ∈ clusterReadNames ∧ "frequency" ∉ clusterBoundNames) ∧
    ("log_spec_coef" ∈ clusterReadNames ∧ "log_spec_coef" ∉ clusterBoundNames) ∧
    ("Ispoly" ∈ clusterReadNames ∧ "Ispoly" ∉ clusterBoundNames) ∧
    runStmts (["urd"] ++ clusterParams ++ clusterEnclosing ++
        ["uniq_radec", "ncomp_type", "nradec", "nstokes", "nspec_coef", "nref_freq",
         "nlog_spec_ind", "ngaussian_shape"]) (loopBodyStmts.take 2) =
      Except.error ("NameError: name spec_coef is not defined") :=
  cluster_unbound_names_error ["POINT", "GAUSSIAN"] [(0, 0), (1, 1)] (by simp)

end Crystalball
